import Mathlib

/-!
Verification development for the SOLAR analysis pipeline
(solar_portal: loader, validator, aggregator, classifier).

The Python code is shallowly embedded: DataFrames become lists of
records, numeric cells become an explicit `Cell` type distinguishing a
numeric value, a non-numeric (text) value and a null (pandas NaN
comparisons are `false`), machine floats become exact rationals, and
the stateful validator / classifier objects become explicit
state-passing functions that mirror the Python methods line by line.
-/

/-! ## Configuration constants (config.py) -/

def PANEL_rated_power_W : ℚ := 48

def PANEL_voc_V : ℚ := 58.9

def ANALYSIS_min_upload_rows : Nat := 100

def ANALYSIS_max_file_size_mb : ℚ := 100

/-! ## Cells and rows (the validator's view of a DataFrame row) -/

/-- A pandas cell of a numeric column: a numeric value, a non-numeric
(text) value, or a null/NaN.  Pandas comparisons on NaN are `false`. -/
inductive Cell where
  | num (q : ℚ)
  | text
  | null
deriving DecidableEq, Repr

def Cell.isTextB : Cell → Bool
  | .text => true
  | _ => false

def Cell.isNullB : Cell → Bool
  | .null => true
  | _ => false

/-- `df[col] < q` on one cell: `false` for text/null (NaN semantics). -/
def Cell.ltQ : Cell → ℚ → Bool
  | .num v, q => decide (v < q)
  | _, _ => false

/-- `df[col] > q` on one cell: `false` for text/null (NaN semantics). -/
def Cell.gtQ : Cell → ℚ → Bool
  | .num v, q => decide (q < v)
  | _, _ => false

/-- One row of the loader's output DataFrame: parsed `timestamp`
(seconds, rational), the four numeric measurement columns as cells,
and the derived `date` and `hour` keys. -/
structure Row where
  timestamp : ℚ
  voltage_V : Cell
  current_A : Cell
  power_W : Cell
  temperature_C : Cell
  date : Nat
  hour : Nat
deriving DecidableEq, Repr

/-- The four numeric columns, in the order the validator iterates. -/
inductive Col where
  | voltage_V
  | current_A
  | power_W
  | temperature_C
deriving DecidableEq, Repr

def projCell : Col → Row → Cell
  | Col.voltage_V, r => r.voltage_V
  | Col.current_A, r => r.current_A
  | Col.power_W, r => r.power_W
  | Col.temperature_C, r => r.temperature_C

def NUMERIC_COLS : List Col :=
  [Col.voltage_V, Col.current_A, Col.power_W, Col.temperature_C]

/-- VALID_RANGES from config.py, in dict iteration order. -/
def VALID_RANGES : List (Col × ℚ × ℚ) :=
  [(Col.voltage_V, 0, 100), (Col.current_A, 0, 10),
   (Col.power_W, 0, 500), (Col.temperature_C, -20, 80)]

/-! ## Validator (validators.py) -/

/-- Fatal validation errors (messages abstracted to their payload). -/
inductive VError where
  | invalidDataType (col : Col)
  | poorQuality (pct : ℚ)
deriving DecidableEq, Repr

/-- Advisory validation warnings (messages abstracted to payloads). -/
inductive VWarning where
  | outOfRange (col : Col) (count : Nat) (lo hi : ℚ)
  | notChronological
  | largeGap (gap : Option ℚ)
  | exceedRatedPower (count : Nat)
  | exceedVoc (count : Nat)
  | someMissing (pct : ℚ)
deriving DecidableEq, Repr

/-- The mutable state of a `DataValidator` instance. -/
structure DataValidator where
  validation_errors : List VError
  validation_warnings : List VWarning
  outliers : List Row
deriving DecidableEq, Repr

/-- `DataValidator.__init__`. -/
def DataValidator.init : DataValidator :=
  { validation_errors := [], validation_warnings := [], outliers := [] }

/-- The report dict built at the end of `validate_all`. -/
structure Report where
  is_valid : Bool
  errors : List VError
  warnings : List VWarning
  total_rows : Nat
  invalid_rows : Nat
  data_quality : ℚ
deriving DecidableEq, Repr

/-- `_check_data_types`: for each numeric column, a fatal error if some
cell is non-numeric and not null (`to_numeric(...).isna() & notna()`). -/
def checkDataTypes (v : DataValidator) (df : List Row) : DataValidator :=
  NUMERIC_COLS.foldl (fun v c =>
    let nonNumeric := df.filter (fun r => (projCell c r).isTextB)
    if 0 < nonNumeric.length then
      { v with validation_errors :=
          v.validation_errors ++ [VError.invalidDataType c] }
    else v) v

/-- The rows of `df` flagged out of range for one VALID_RANGES entry. -/
def rangeOut (s : Col × ℚ × ℚ) (df : List Row) : List Row :=
  df.filter (fun r => (projCell s.1 r).ltQ s.2.1 || (projCell s.1 r).gtQ s.2.2)

/-- `_check_value_ranges`: per column, warn and append out-of-range rows
to the outlier accumulator. -/
def checkValueRanges (v : DataValidator) (df : List Row) : DataValidator :=
  VALID_RANGES.foldl (fun v s =>
    let out := rangeOut s df
    if 0 < out.length then
      { v with
          validation_warnings := v.validation_warnings ++
            [VWarning.outOfRange s.1 out.length s.2.1 s.2.2],
          outliers := v.outliers ++ out }
    else v) v

/-- `series.is_monotonic_increasing` (non-decreasing). -/
def nonDecreasing : List ℚ → Bool
  | [] => true
  | [_] => true
  | a :: b :: t => decide (a ≤ b) && nonDecreasing (b :: t)

/-- Consecutive differences of a list (the non-NaT part of `.diff()`). -/
def diffs : List ℚ → List ℚ
  | a :: b :: t => (b - a) :: diffs (b :: t)
  | _ => []

/-- Insertion sort, ascending (models `sort_values` / pandas sorts). -/
def insertLe [LinearOrder α] (a : α) : List α → List α
  | [] => [a]
  | b :: t => if a ≤ b then a :: b :: t else b :: insertLe a t

def sortLe [LinearOrder α] : List α → List α
  | [] => []
  | a :: t => insertLe a (sortLe t)

/-- `_check_temporal_integrity`: warn when timestamps are not
non-decreasing; warn when the max gap between consecutive sorted
timestamps is NaT (fewer than two rows) or exceeds one hour (3600 s). -/
def checkTemporalIntegrity (v : DataValidator) (df : List Row) : DataValidator :=
  let ts := df.map (fun r => r.timestamp)
  let v :=
    if ¬ nonDecreasing ts then
      { v with validation_warnings :=
          v.validation_warnings ++ [VWarning.notChronological] }
    else v
  match (diffs (sortLe ts)).max? with
  | none =>
      { v with validation_warnings :=
          v.validation_warnings ++ [VWarning.largeGap none] }
  | some g =>
      if 3600 < g then
        { v with validation_warnings :=
            v.validation_warnings ++ [VWarning.largeGap (some g)] }
      else v

/-- Rows with `power_W > 2 * rated_power`. -/
def highPowerRows (df : List Row) : List Row :=
  df.filter (fun r => r.power_W.gtQ (2 * PANEL_rated_power_W))

/-- Rows with `voltage_V > 1.2 * voc`. -/
def highVoltageRows (df : List Row) : List Row :=
  df.filter (fun r => r.voltage_V.gtQ (1.2 * PANEL_voc_V))

/-- `_detect_outliers`: physical-impossibility checks, each warning and
appending to the outlier accumulator. -/
def detectOutliers (v : DataValidator) (df : List Row) : DataValidator :=
  let high_power := highPowerRows df
  let v :=
    if 0 < high_power.length then
      { v with
          validation_warnings := v.validation_warnings ++
            [VWarning.exceedRatedPower high_power.length],
          outliers := v.outliers ++ high_power }
    else v
  let high_voltage := highVoltageRows df
  if 0 < high_voltage.length then
    { v with
        validation_warnings := v.validation_warnings ++
          [VWarning.exceedVoc high_voltage.length],
        outliers := v.outliers ++ high_voltage }
  else v

/-- Nulls in one row (the three non-numeric columns are never null in
loader output). -/
def rowNullCount (r : Row) : Nat :=
  (if r.voltage_V.isNullB then 1 else 0) +
  (if r.current_A.isNullB then 1 else 0) +
  (if r.power_W.isNullB then 1 else 0) +
  (if r.temperature_C.isNullB then 1 else 0)

/-- `(df.isnull().sum() / len(df) * 100).mean()` over the 7 columns. -/
def nullPct (df : List Row) : ℚ :=
  (((df.map rowNullCount).sum : ℚ) / (df.length : ℚ) * 100) / 7

/-- `_check_missing_data`: fatal above 20 %, advisory above 5 %. -/
def checkMissingData (v : DataValidator) (df : List Row) : DataValidator :=
  let p := nullPct df
  if 20 < p then
    { v with validation_errors :=
        v.validation_errors ++ [VError.poorQuality p] }
  else if 5 < p then
    { v with validation_warnings :=
        v.validation_warnings ++ [VWarning.someMissing p] }
  else v

/-- `validate_all`: resets the error and warning lists (but not the
outlier accumulator), runs the five checks in source order, and builds
the report; returns `(is_valid, report)` together with the mutated
instance. -/
def DataValidator.validate_all (v : DataValidator) (df : List Row) :
    DataValidator × Bool × Report :=
  let v := { v with validation_errors := [], validation_warnings := [] }
  let v := checkDataTypes v df
  let v := checkValueRanges v df
  let v := checkTemporalIntegrity v df
  let v := detectOutliers v df
  let v := checkMissingData v df
  let is_valid := v.validation_errors.isEmpty
  (v, is_valid,
    { is_valid := is_valid
      errors := v.validation_errors
      warnings := v.validation_warnings
      total_rows := df.length
      invalid_rows := v.outliers.length
      data_quality := (1 - (v.outliers.length : ℚ) / (df.length : ℚ)) * 100 })

/-! ## Classifier (classifiers.py) -/

/-- The classifier's view of one measurement: the two columns its logic
reads (`hour` for the groupby/merge key, `power_W` for the ratio);
remaining columns pass through the merge untouched. -/
structure Meas where
  hour : Nat
  power_W : ℚ
deriving DecidableEq, Repr

inductive Classification where
  | CLEAR
  | MARGINAL
  | CLOUDY
deriving DecidableEq, Repr

/-- Pandas median: middle of the sorted values, or the mean of the two
middle values for an even count. -/
def median (l : List ℚ) : ℚ :=
  let s := sortLe l
  let n := s.length
  if n % 2 = 1 then s.getD (n / 2) 0
  else (s.getD (n / 2 - 1) 0 + s.getD (n / 2) 0) / 2

/-- `compute_hourly_medians`: `groupby("hour")["power_W"].median()` —
distinct hours in ascending key order, each with the median power. -/
def computeHourlyMedians (df : List Meas) : List (Nat × ℚ) :=
  (sortLe ((df.map (fun m => m.hour)).dedup)).map (fun h =>
    (h, median ((df.filter (fun m => m.hour = h)).map (fun m => m.power_W))))

/-- The `1e-6` guard added to the median before dividing. -/
def eps : ℚ := 1 / 1000000

/-- The three `.loc` assignments of `classify`, in source order:
default CLOUDY, overwrite CLEAR where `ratio >= threshold`, overwrite
MARGINAL where `0.5*threshold <= ratio < threshold`. -/
def labelOf (th r : ℚ) : Classification :=
  let c := Classification.CLOUDY
  let c := if th ≤ r then Classification.CLEAR else c
  let c := if 0.5 * th ≤ r ∧ r < th then Classification.MARGINAL else c
  c

/-- `clip(0, 1)`. -/
def clip01 (x : ℚ) : ℚ := min 1 (max 0 x)

/-- One classified output row.  A row whose hour is absent from the
merged medians (the left-join NaN path, dead through the class API)
keeps `none` for the NaN-valued columns and the default CLOUDY label
(NaN comparisons are false, so neither `.loc` overwrite fires). -/
structure ClassifiedRow where
  hour : Nat
  power_W : ℚ
  median_power_W : Option ℚ
  power_ratio : Option ℚ
  classification : Classification
  confidence : Option ℚ
deriving DecidableEq, Repr

def classifyRow (th : ℚ) (hm : List (Nat × ℚ)) (m : Meas) : ClassifiedRow :=
  match List.lookup m.hour hm with
  | some med =>
      let r := m.power_W / (med + eps)
      { hour := m.hour, power_W := m.power_W
        median_power_W := some med, power_ratio := some r
        classification := labelOf th r
        confidence := some (clip01 (1 - |r - th| / max th (1 - th))) }
  | none =>
      { hour := m.hour, power_W := m.power_W
        median_power_W := none, power_ratio := none
        classification := Classification.CLOUDY, confidence := none }

/-- The state of a `CloudClassifier` instance. -/
structure CloudClassifier where
  df : List Meas
  threshold : ℚ
  classifications : Option (List ClassifiedRow)
  hourly_medians : Option (List (Nat × ℚ))
deriving DecidableEq, Repr

/-- `CloudClassifier.__init__`: `max(0.5, min(0.9, threshold))`. -/
def mkCloudClassifier (df : List Meas) (threshold : ℚ) : CloudClassifier :=
  { df := df
    threshold := max 0.5 (min 0.9 threshold)
    classifications := none
    hourly_medians := none }

/-- `classify`: compute the hourly medians if absent, left-merge them on
`hour`, derive ratio, label and confidence, and cache the result. -/
def CloudClassifier.classify (c : CloudClassifier) :
    CloudClassifier × List ClassifiedRow :=
  let c :=
    match c.hourly_medians with
    | none => { c with hourly_medians := some (computeHourlyMedians c.df) }
    | some _ => c
  let hm := c.hourly_medians.getD []
  let out := c.df.map (classifyRow c.threshold hm)
  ({ c with classifications := some out }, out)

structure ClassificationSummary where
  clear_count : Nat
  clear_pct : ℚ
  marginal_count : Nat
  marginal_pct : ℚ
  cloudy_count : Nat
  cloudy_pct : ℚ
deriving DecidableEq, Repr

/-- `get_classification_summary`: classify first if no cached result,
then count each label and convert to percentages of the total. -/
def CloudClassifier.get_classification_summary (c : CloudClassifier) :
    CloudClassifier × ClassificationSummary :=
  let p :=
    match c.classifications with
    | none => c.classify
    | some cls => (c, cls)
  let cls := p.2
  let total := cls.length
  let nClear := cls.countP (fun r => r.classification = Classification.CLEAR)
  let nMarginal := cls.countP (fun r => r.classification = Classification.MARGINAL)
  let nCloudy := cls.countP (fun r => r.classification = Classification.CLOUDY)
  (p.1,
    { clear_count := nClear
      clear_pct := (nClear : ℚ) / (total : ℚ) * 100
      marginal_count := nMarginal
      marginal_pct := (nMarginal : ℚ) / (total : ℚ) * 100
      cloudy_count := nCloudy
      cloudy_pct := (nCloudy : ℚ) / (total : ℚ) * 100 })

/-! ## Aggregator (processors.py) -/

/-- One row of the hourly summary table (input of the daily step). -/
structure HourlyRow where
  date : Nat
  hour : Nat
  avg_power_W : ℚ
  std_power_W : ℚ
  count_measurements : Nat
  avg_voltage_V : ℚ
  avg_current_A : ℚ
  avg_temperature_C : ℚ
deriving DecidableEq, Repr

structure DailyRow where
  date : Nat
  peak_power_W : ℚ
  avg_power_W : ℚ
  hours_measured : Nat
  temp_avg_C : ℚ
  energy_Wh : ℚ
deriving DecidableEq, Repr

/-- Max of a group column (groups are nonempty; `0` is a dead default). -/
def qmax : List ℚ → ℚ
  | [] => 0
  | x :: xs => xs.foldl max x

def qsum (l : List ℚ) : ℚ := l.foldl (· + ·) 0

/-- `compute_daily_aggregations`: group the hourly table by `date`
(ascending key order); per group take max and mean of `avg_power_W`,
sum of `count_measurements`, mean of `avg_temperature_C`, and derive
`energy_Wh = avg_power_W * hours_measured`. -/
def compute_daily_aggregations (hourly : List HourlyRow) : List DailyRow :=
  (sortLe ((hourly.map (fun r => r.date)).dedup)).map (fun d =>
    let g := hourly.filter (fun r => r.date = d)
    let avgs := g.map (fun r => r.avg_power_W)
    let avg := qsum avgs / (g.length : ℚ)
    let hrs := (g.map (fun r => r.count_measurements)).sum
    { date := d
      peak_power_W := qmax avgs
      avg_power_W := avg
      hours_measured := hrs
      temp_avg_C := qsum (g.map (fun r => r.avg_temperature_C)) / (g.length : ℚ)
      energy_Wh := avg * (hrs : ℚ) })

/-! ## Loader (data_loader.py) -/

inductive LoadError where
  | fileNotFound
  | fileTooLarge
  | readError
  | emptyFile
  | missingColumns (missing : List String)
  | invalidTimestamp
deriving DecidableEq, Repr

/-- The observable attributes `load_csv` branches on: existence, size,
parseability, header, row count, and timestamp parseability. -/
structure CSVResource where
  present : Bool
  size_mb : ℚ
  parseOk : Bool
  columns : List String
  nrows : Nat
  timestampsParse : Bool
deriving DecidableEq, Repr

def REQUIRED_COLUMNS : List String :=
  ["timestamp", "voltage_V", "current_A", "power_W", "temperature_C"]

/-- `DataLoader.load_csv`: the checks in source order — existence, size
ceiling, CSV parse, minimum row count, required columns (reporting
exactly the missing ones), timestamp parse; on success the frame is
restricted to the required columns plus the derived `date`/`hour`. -/
def load_csv (f : CSVResource) : Except LoadError (List String × Nat) :=
  if ¬ f.present then .error .fileNotFound
  else if ANALYSIS_max_file_size_mb < f.size_mb then .error .fileTooLarge
  else if ¬ f.parseOk then .error .readError
  else if f.nrows < ANALYSIS_min_upload_rows then .error .emptyFile
  else
    let missing := REQUIRED_COLUMNS.filter (fun c => ¬ f.columns.contains c)
    if missing ≠ [] then .error (.missingColumns missing)
    else if ¬ f.timestampsParse then .error .invalidTimestamp
    else .ok (REQUIRED_COLUMNS ++ ["date", "hour"], f.nrows)

/-! ## Helper lemmas -/

lemma mem_insertLe [LinearOrder α] (a b : α) (l : List α) :
    b ∈ insertLe a l ↔ b ∈ a :: l := by
  induction l with
  | nil => simp [insertLe]
  | cons c t ih =>
    unfold insertLe
    split_ifs with h
    · rfl
    · simp only [List.mem_cons] at ih ⊢
      tauto

lemma mem_sortLe [LinearOrder α] (a : α) (l : List α) :
    a ∈ sortLe l ↔ a ∈ l := by
  induction l with
  | nil => rfl
  | cons b t ih =>
    unfold sortLe
    rw [mem_insertLe]
    simp only [List.mem_cons, ih]

lemma lookup_map_self (h : Nat) (ks : List Nat) (f : Nat → ℚ) (hk : h ∈ ks) :
    ∃ v, List.lookup h (ks.map (fun k => (k, f k))) = some v := by
  induction ks with
  | nil => cases hk
  | cons a t ih =>
    by_cases hha : h = a
    · exact ⟨f a, by simp [List.lookup, hha]⟩
    · rcases List.mem_cons.mp hk with h1 | h2
      · exact absurd h1 hha
      · obtain ⟨v, hv⟩ := ih h2
        refine ⟨v, ?_⟩
        have hba : (h == a) = false := beq_eq_false_iff_ne.mpr hha
        simp [List.lookup, hba, hv]

lemma labelOf_cases (th r : ℚ) (hth : 0 ≤ th) :
    (labelOf th r = Classification.CLEAR ↔ th ≤ r) ∧
    (labelOf th r = Classification.MARGINAL ↔ 0.5 * th ≤ r ∧ r < th) ∧
    (labelOf th r = Classification.CLOUDY ↔ r < 0.5 * th) := by
  by_cases hm : 0.5 * th ≤ r ∧ r < th
  · have hc : ¬ th ≤ r := not_le.mpr hm.2
    simp only [labelOf]
    rw [if_pos hm]
    exact ⟨iff_of_false (by simp) hc, iff_of_true rfl hm,
      iff_of_false (by simp) (not_lt.mpr hm.1)⟩
  · by_cases hc : th ≤ r
    · simp only [labelOf]
      rw [if_neg hm, if_pos hc]
      exact ⟨iff_of_true rfl hc, iff_of_false (by simp) hm,
        iff_of_false (by simp) (not_lt.mpr (by linarith))⟩
    · have hr : r < th := not_le.mp hc
      have hr2 : r < 0.5 * th := by
        by_contra hcc
        push_neg at hcc
        exact hm ⟨hcc, hr⟩
      simp only [labelOf]
      rw [if_neg hm, if_neg hc]
      exact ⟨iff_of_false (by simp) hc, iff_of_false (by simp) hm,
        iff_of_true rfl hr2⟩

lemma clip01_bounds (x : ℚ) : 0 ≤ clip01 x ∧ clip01 x ≤ 1 := by
  unfold clip01
  exact ⟨le_min (by norm_num) (le_max_left 0 x), min_le_left 1 _⟩

lemma count_three (l : List ClassifiedRow) :
    l.countP (fun r => r.classification = Classification.CLEAR) +
    l.countP (fun r => r.classification = Classification.MARGINAL) +
    l.countP (fun r => r.classification = Classification.CLOUDY) = l.length := by
  induction l with
  | nil => rfl
  | cons a t ih =>
    rcases ha : a.classification <;>
      simp [List.countP_cons, ha, List.length_cons] <;> omega

lemma foldl_max_mem (xs : List ℚ) : ∀ (a : ℚ), xs.foldl max a ∈ a :: xs := by
  induction xs with
  | nil => intro a; simp
  | cons b t ih =>
    intro a
    rw [List.foldl_cons]
    rcases List.mem_cons.mp (ih (max a b)) with h | h
    · rcases max_choice a b with hm | hm
      · exact List.mem_cons.mpr (Or.inl (h.trans hm))
      · exact List.mem_cons.mpr (Or.inr (List.mem_cons.mpr (Or.inl (h.trans hm))))
    · exact List.mem_cons.mpr (Or.inr (List.mem_cons.mpr (Or.inr h)))

lemma le_foldl_max (xs : List ℚ) : ∀ (a : ℚ), ∀ x ∈ a :: xs, x ≤ xs.foldl max a := by
  induction xs with
  | nil =>
    intro a x hx
    simp only [List.mem_singleton] at hx
    simp [hx]
  | cons b t ih =>
    intro a x hx
    rw [List.foldl_cons]
    have hbase : max a b ≤ t.foldl max (max a b) :=
      ih (max a b) (max a b) (List.mem_cons_self _ _)
    rcases List.mem_cons.mp hx with h | h
    · rw [h]
      exact le_trans (le_max_left a b) hbase
    · rcases List.mem_cons.mp h with h2 | h2
      · rw [h2]
        exact le_trans (le_max_right a b) hbase
      · exact ih (max a b) x (List.mem_cons_of_mem _ h2)

lemma qmax_spec (l : List ℚ) (h : l ≠ []) :
    qmax l ∈ l ∧ ∀ x ∈ l, x ≤ qmax l := by
  cases l with
  | nil => exact absurd rfl h
  | cons a xs => exact ⟨foldl_max_mem xs a, le_foldl_max xs a⟩

/-! ## Validator characterisation: each check appends contributions that
depend only on the input frame; only two checks touch the outlier
accumulator. -/

/-- The `_check_data_types` contribution of one column. -/
def typeErr1 (df : List Row) (c : Col) : List VError :=
  if 0 < (df.filter (fun r => (projCell c r).isTextB)).length then
    [VError.invalidDataType c]
  else []

/-- Fatal errors produced by `_check_data_types`. -/
def typeErrorList (df : List Row) : List VError :=
  (NUMERIC_COLS.map (typeErr1 df)).flatten

/-- The `_check_value_ranges` warning of one VALID_RANGES entry. -/
def rangeWarn1 (df : List Row) (s : Col × ℚ × ℚ) : List VWarning :=
  if 0 < (rangeOut s df).length then
    [VWarning.outOfRange s.1 (rangeOut s df).length s.2.1 s.2.2]
  else []

/-- Warnings produced by `_check_value_ranges`. -/
def rangeWarnList (df : List Row) : List VWarning :=
  (VALID_RANGES.map (rangeWarn1 df)).flatten

/-- The multiset of rows flagged by the range-conformity check, one copy
per violated column. -/
def rangeFlagged (df : List Row) : List Row :=
  (VALID_RANGES.map (fun s => rangeOut s df)).flatten

/-- Warnings produced by `_check_temporal_integrity`. -/
def tempWarnList (df : List Row) : List VWarning :=
  (if nonDecreasing (df.map (fun r => r.timestamp)) then []
   else [VWarning.notChronological]) ++
  (match (diffs (sortLe (df.map (fun r => r.timestamp)))).max? with
   | none => [VWarning.largeGap none]
   | some g => if 3600 < g then [VWarning.largeGap (some g)] else [])

/-- Warnings produced by `_detect_outliers`. -/
def physWarnList (df : List Row) : List VWarning :=
  (if 0 < (highPowerRows df).length then
     [VWarning.exceedRatedPower (highPowerRows df).length] else []) ++
  (if 0 < (highVoltageRows df).length then
     [VWarning.exceedVoc (highVoltageRows df).length] else [])

/-- The multiset of rows flagged by the physical-outlier check. -/
def physFlagged (df : List Row) : List Row :=
  highPowerRows df ++ highVoltageRows df

/-- Fatal errors produced by `_check_missing_data`. -/
def missErrList (df : List Row) : List VError :=
  if 20 < nullPct df then [VError.poorQuality (nullPct df)] else []

/-- Warnings produced by `_check_missing_data`. -/
def missWarnList (df : List Row) : List VWarning :=
  if 20 < nullPct df then []
  else if 5 < nullPct df then [VWarning.someMissing (nullPct df)] else []

lemma checkDataTypes_eq (v : DataValidator) (df : List Row) :
    checkDataTypes v df =
      { v with validation_errors := v.validation_errors ++ typeErrorList df } := by
  simp only [checkDataTypes, typeErrorList, typeErr1, NUMERIC_COLS,
    List.foldl, List.map, List.flatten]
  split_ifs <;> simp_all [List.append_assoc]

lemma checkValueRanges_eq (v : DataValidator) (df : List Row) :
    checkValueRanges v df =
      { v with
          validation_warnings := v.validation_warnings ++ rangeWarnList df,
          outliers := v.outliers ++ rangeFlagged df } := by
  simp only [checkValueRanges, rangeWarnList, rangeWarn1, rangeFlagged,
    VALID_RANGES, List.foldl, List.map, List.flatten]
  split_ifs <;> simp_all [List.append_assoc, List.length_eq_zero]

lemma checkTemporalIntegrity_eq (v : DataValidator) (df : List Row) :
    checkTemporalIntegrity v df =
      { v with validation_warnings := v.validation_warnings ++ tempWarnList df } := by
  simp only [checkTemporalIntegrity, tempWarnList]
  rcases hmx : (diffs (sortLe (df.map (fun r => r.timestamp)))).max? with _ | g
  · by_cases hnd : nonDecreasing (df.map (fun r => r.timestamp)) <;> simp [hnd, hmx]
  · by_cases hnd : nonDecreasing (df.map (fun r => r.timestamp)) <;>
      by_cases hg : (3600 : ℚ) < g <;> simp [hnd, hg, hmx]

lemma detectOutliers_eq (v : DataValidator) (df : List Row) :
    detectOutliers v df =
      { v with
          validation_warnings := v.validation_warnings ++ physWarnList df,
          outliers := v.outliers ++ physFlagged df } := by
  simp only [detectOutliers, physWarnList, physFlagged]
  split_ifs <;> simp_all [List.append_assoc, List.length_eq_zero]

lemma checkMissingData_eq (v : DataValidator) (df : List Row) :
    checkMissingData v df =
      { v with
          validation_errors := v.validation_errors ++ missErrList df,
          validation_warnings := v.validation_warnings ++ missWarnList df } := by
  simp only [checkMissingData, missErrList, missWarnList]
  split_ifs <;> simp_all

/-- Errors of a `validate_all` report, as a function of the frame. -/
def reportErrors (df : List Row) : List VError :=
  typeErrorList df ++ missErrList df

/-- Warnings of a `validate_all` report, as a function of the frame. -/
def reportWarnings (df : List Row) : List VWarning :=
  rangeWarnList df ++ tempWarnList df ++ physWarnList df ++ missWarnList df

/-- The multiset of rows flagged by the range-conformity and
physical-outlier checks during one `validate_all` run. -/
def flaggedOutliers (df : List Row) : List Row :=
  rangeFlagged df ++ physFlagged df

lemma validate_all_eq (v : DataValidator) (df : List Row) :
    v.validate_all df =
      ({ validation_errors := reportErrors df,
         validation_warnings := reportWarnings df,
         outliers := v.outliers ++ flaggedOutliers df },
       (reportErrors df).isEmpty,
       { is_valid := (reportErrors df).isEmpty,
         errors := reportErrors df,
         warnings := reportWarnings df,
         total_rows := df.length,
         invalid_rows := (v.outliers ++ flaggedOutliers df).length,
         data_quality :=
           (1 - ((v.outliers ++ flaggedOutliers df).length : ℚ) / (df.length : ℚ)) * 100 }) := by
  simp only [DataValidator.validate_all]
  rw [checkDataTypes_eq, checkValueRanges_eq, checkTemporalIntegrity_eq,
    detectOutliers_eq, checkMissingData_eq]
  simp [reportErrors, reportWarnings, flaggedOutliers, List.append_assoc]

/-! ## Claim theorems -/

/-- Claim C4: for every validator state and measurement set,
`validate_all` returns `is_valid` true exactly when the report's error
list is empty; the returned boolean and the report field agree, and
validity is a function of the errors alone, so warnings cannot affect
it. -/
theorem C4_is_valid_iff_errors_empty (v : DataValidator) (df : List Row) :
    ((v.validate_all df).2.1 = ((v.validate_all df).2.2).is_valid) ∧
    (((v.validate_all df).2.2).is_valid = ((v.validate_all df).2.2).errors.isEmpty) ∧
    (((v.validate_all df).2.2).is_valid = true ↔ ((v.validate_all df).2.2).errors = []) := by
  refine ⟨rfl, rfl, ?_⟩
  rw [validate_all_eq]
  simp [List.isEmpty_iff]

/-- Claim C7: `classify` is idempotent — a second call on the instance
returned by the first call produces the same output table and the same
instance state (the cached medians are reused, the output is recomputed
from the unchanged `self.df`, and nothing accumulates). -/
theorem C7_classify_idempotent (df : List Meas) (t : ℚ) :
    ((((mkCloudClassifier df t).classify).1).classify).2 =
      ((mkCloudClassifier df t).classify).2 ∧
    ((((mkCloudClassifier df t).classify).1).classify).1 =
      ((mkCloudClassifier df t).classify).1 := by
  exact ⟨rfl, rfl⟩

/-- Claim C9: the classifier's effective threshold is the constructor
input clamped to [0.5, 0.9], never an error: in-range inputs pass
through, out-of-range inputs go to the nearest bound, and in particular
0.1 yields 0.5 and 1.5 yields 0.9. -/
theorem C9_threshold_clamped (df : List Meas) (t : ℚ) :
    (0.5 ≤ (mkCloudClassifier df t).threshold ∧
     (mkCloudClassifier df t).threshold ≤ 0.9) ∧
    (t < 0.5 → (mkCloudClassifier df t).threshold = 0.5) ∧
    (0.9 < t → (mkCloudClassifier df t).threshold = 0.9) ∧
    (0.5 ≤ t → t ≤ 0.9 → (mkCloudClassifier df t).threshold = t) ∧
    (mkCloudClassifier df (1/10)).threshold = 0.5 ∧
    (mkCloudClassifier df (3/2)).threshold = 0.9 := by
  simp only [mkCloudClassifier]
  refine ⟨⟨le_max_left _ _, max_le (by norm_num) (min_le_left _ _)⟩,
    ?_, ?_, ?_, ?_, ?_⟩
  · intro h
    rw [min_eq_right (by linarith), max_eq_left (by linarith)]
  · intro h
    rw [min_eq_left (by linarith)]
    norm_num
  · intro h1 h2
    rw [min_eq_right h2, max_eq_right h1]
  · norm_num
  · norm_num

/-- Claim C9 witness: the two concrete clampings from the spec. -/
theorem C9_threshold_clamped_witness :
    (mkCloudClassifier [] (1/10)).threshold = 0.5 ∧
    (mkCloudClassifier [] (3/2)).threshold = 0.9 :=
  ⟨(C9_threshold_clamped [] (1/10)).2.1 (by norm_num),
   (C9_threshold_clamped [] (3/2)).2.2.1 (by norm_num)⟩

/-- Claim C10: the row-count minimum is checked before the required
columns, so a present, small-enough, parseable input with fewer than
`min_upload_rows` rows that is also missing required columns fails with
the empty-file error, not the missing-columns error. -/
theorem C10_rowcount_checked_before_columns (f : CSVResource)
    (hp : f.present = true) (hs : f.size_mb ≤ ANALYSIS_max_file_size_mb)
    (hk : f.parseOk = true) (hn : f.nrows < ANALYSIS_min_upload_rows)
    (_hm : ∃ c ∈ REQUIRED_COLUMNS, ¬ f.columns.contains c) :
    load_csv f = .error .emptyFile := by
  simp only [load_csv, hp, hk, hn]
  simp [not_lt.mpr hs]

/-- Claim C10 witness: a 3-row parseable file missing four required
columns is rejected as empty, not as missing columns. -/
theorem C10_rowcount_checked_before_columns_witness :
    load_csv { present := true, size_mb := 1, parseOk := true,
               columns := ["timestamp"], nrows := 3, timestampsParse := true } =
      .error .emptyFile :=
  C10_rowcount_checked_before_columns _ rfl
    (by norm_num [ANALYSIS_max_file_size_mb]) rfl
    (by norm_num [ANALYSIS_min_upload_rows]) ⟨"voltage_V", by decide⟩

/-- A single well-typed measurement row whose power breaks both the
range bound (500 W) and the physical bound (2 × 48 W). -/
def row600 : Row :=
  { timestamp := 0, voltage_V := Cell.num 20, current_A := Cell.num 1,
    power_W := Cell.num 600, temperature_C := Cell.num 25, date := 0, hour := 0 }

/-- A single well-typed measurement row whose power is inside the
configured range but above 2 × rated power, so it is flagged exactly
once. -/
def row100 : Row :=
  { timestamp := 0, voltage_V := Cell.num 20, current_A := Cell.num 1,
    power_W := Cell.num 100, temperature_C := Cell.num 25, date := 0, hour := 0 }

/-- The report of `validate_all` as a function of the incoming outlier
accumulator and the frame. -/
lemma validate_report (v : DataValidator) (df : List Row) :
    (v.validate_all df).2.2 =
      { is_valid := (reportErrors df).isEmpty,
        errors := reportErrors df,
        warnings := reportWarnings df,
        total_rows := df.length,
        invalid_rows := v.outliers.length + (flaggedOutliers df).length,
        data_quality :=
          (1 - ((v.outliers.length + (flaggedOutliers df).length : ℕ) : ℚ) /
            (df.length : ℚ)) * 100 } := by
  rw [validate_all_eq]
  simp [List.length_append]

/-- The outlier accumulator after `validate_all`. -/
lemma validate_state_outliers (v : DataValidator) (df : List Row) :
    ((v.validate_all df).1).outliers = v.outliers ++ flaggedOutliers df := by
  rw [validate_all_eq]

/-- `row600` is flagged by the power range check and by the rated-power
check: two copies in the outlier multiset. -/
lemma flagged_row600 : flaggedOutliers [row600] = [row600, row600] := by
  norm_num [flaggedOutliers, rangeFlagged, physFlagged, rangeOut, highPowerRows,
    highVoltageRows, VALID_RANGES, row600, Cell.ltQ, Cell.gtQ, List.filter,
    PANEL_rated_power_W, PANEL_voc_V, projCell]

/-- `row100` is flagged only by the rated-power check. -/
lemma flagged_row100 : flaggedOutliers [row100] = [row100] := by
  norm_num [flaggedOutliers, rangeFlagged, physFlagged, rangeOut, highPowerRows,
    highVoltageRows, VALID_RANGES, row100, Cell.ltQ, Cell.gtQ, List.filter,
    PANEL_rated_power_W, PANEL_voc_V, projCell]

/-- Neither singleton frame produces a fatal error. -/
lemma reportErrors_row600 : reportErrors [row600] = [] := by
  norm_num [reportErrors, typeErrorList, typeErr1, missErrList, NUMERIC_COLS,
    nullPct, rowNullCount, row600, Cell.isNullB, Cell.isTextB, projCell, List.filter]

/-- Claim C1 counterexample: a one-row set whose row breaks two rules is
accepted (`errors = []`, `is_valid`) yet its `data_quality` is −100,
outside [0,100] — the double-counted outlier multiset exceeds
`total_rows`. -/
theorem C1_counterexample_quality_negative :
    ((DataValidator.init.validate_all [row600]).2.2).errors = [] ∧
    ((DataValidator.init.validate_all [row600]).2.2).is_valid = true ∧
    ((DataValidator.init.validate_all [row600]).2.2).data_quality = -100 ∧
    ¬ (0 ≤ ((DataValidator.init.validate_all [row600]).2.2).data_quality) := by
  rw [validate_report]
  refine ⟨by simp [reportErrors_row600], by simp [reportErrors_row600], ?_, ?_⟩ <;>
    norm_num [DataValidator.init, flagged_row600]

/-- Claim C1 (amended): on a fresh validator, `data_quality` equals
`(1 - |outliers| / total_rows) * 100` where `outliers` is the multiset
of rows flagged by the range-conformity and physical-outlier checks
(double counting included); this value is always ≤ 100, and it lies in
[0,100] exactly when the flagged multiset is no larger than the row
count — which double counting can violate. -/
theorem C1_data_quality_formula (df : List Row) (hne : df ≠ []) :
    ((DataValidator.init.validate_all df).2.2).invalid_rows =
      (flaggedOutliers df).length ∧
    ((DataValidator.init.validate_all df).2.2).data_quality =
      (1 - ((flaggedOutliers df).length : ℚ) / (df.length : ℚ)) * 100 ∧
    ((DataValidator.init.validate_all df).2.2).data_quality ≤ 100 ∧
    ((flaggedOutliers df).length ≤ df.length →
      0 ≤ ((DataValidator.init.validate_all df).2.2).data_quality) := by
  have hlen : 0 < (df.length : ℚ) := by
    have hz : df.length ≠ 0 := fun h => hne (List.length_eq_zero.mp h)
    exact_mod_cast Nat.pos_of_ne_zero hz
  rw [validate_report]
  simp only [DataValidator.init, List.length_nil, Nat.zero_add]
  refine ⟨by trivial, by trivial, ?_, ?_⟩
  · have hq : 0 ≤ ((flaggedOutliers df).length : ℚ) / (df.length : ℚ) :=
      div_nonneg (by positivity) (le_of_lt hlen)
    nlinarith
  · intro hle
    have hq : ((flaggedOutliers df).length : ℚ) / (df.length : ℚ) ≤ 1 := by
      rw [div_le_one hlen]
      exact_mod_cast hle
    nlinarith

/-- Claim C1 witness: the amended claim evaluated on the one-row set
flagged exactly once — there `invalid_rows = 1` and
`data_quality = 0 ∈ [0,100]`. -/
theorem C1_data_quality_formula_witness :
    ((DataValidator.init.validate_all [row100]).2.2).invalid_rows =
      (flaggedOutliers [row100]).length ∧
    ((DataValidator.init.validate_all [row100]).2.2).data_quality =
      (1 - ((flaggedOutliers [row100]).length : ℚ) /
        (([row100] : List Row).length : ℚ)) * 100 ∧
    ((DataValidator.init.validate_all [row100]).2.2).data_quality ≤ 100 ∧
    ((flaggedOutliers [row100]).length ≤ ([row100] : List Row).length →
      0 ≤ ((DataValidator.init.validate_all [row100]).2.2).data_quality) :=
  C1_data_quality_formula [row100] (by simp)

/-- Claim C2 counterexample: two successive `validate_all` calls on the
same instance with the same one-row input return different reports —
the un-reset outlier accumulator doubles `invalid_rows` from 1 to 2. -/
theorem C2_counterexample_second_report_differs :
    ((((DataValidator.init.validate_all [row100]).1).validate_all [row100]).2.2).invalid_rows = 2 ∧
    ((DataValidator.init.validate_all [row100]).2.2).invalid_rows = 1 ∧
    (((DataValidator.init.validate_all [row100]).1).validate_all [row100]).2.2 ≠
      (DataValidator.init.validate_all [row100]).2.2 := by
  have h1 : ((DataValidator.init.validate_all [row100]).2.2).invalid_rows = 1 := by
    rw [validate_report]
    simp [DataValidator.init, flagged_row100]
  have h2 : ((((DataValidator.init.validate_all [row100]).1).validate_all [row100]).2.2).invalid_rows = 2 := by
    rw [validate_report, validate_state_outliers]
    simp [DataValidator.init, flagged_row100]
  refine ⟨h2, h1, fun h => ?_⟩
  rw [h, h1] at h2
  exact absurd h2 (by norm_num)

/-- Claim C2 (amended): `validate_all` never mutates the input frame
(it is a pure function of the instance state and the frame), and a
second call on the same instance reproduces the errors, warnings,
validity verdict and row count of the first; but because the outlier
accumulator is not reset between calls, the second report's
`invalid_rows` is exactly twice the first's, so the two reports (and
their `data_quality`) coincide only when no row was flagged. -/
theorem C2_validate_all_second_call (df : List Row) :
    ((((DataValidator.init.validate_all df).1).validate_all df).2.2).errors =
      ((DataValidator.init.validate_all df).2.2).errors ∧
    ((((DataValidator.init.validate_all df).1).validate_all df).2.2).warnings =
      ((DataValidator.init.validate_all df).2.2).warnings ∧
    ((((DataValidator.init.validate_all df).1).validate_all df).2.2).is_valid =
      ((DataValidator.init.validate_all df).2.2).is_valid ∧
    ((((DataValidator.init.validate_all df).1).validate_all df).2.2).total_rows =
      ((DataValidator.init.validate_all df).2.2).total_rows ∧
    ((((DataValidator.init.validate_all df).1).validate_all df).2.2).invalid_rows =
      2 * ((DataValidator.init.validate_all df).2.2).invalid_rows := by
  rw [validate_report, validate_report, validate_state_outliers]
  simp only [DataValidator.init, List.nil_append, List.length_nil, Nat.zero_add]
  exact ⟨by trivial, by trivial, by trivial, by trivial, by omega⟩

/-- The output table of `classify` on a fresh classifier. -/
lemma classify_out (df : List Meas) (t : ℚ) :
    ((mkCloudClassifier df t).classify).2 =
      df.map (classifyRow (max 0.5 (min 0.9 t)) (computeHourlyMedians df)) := rfl

/-- Claim C3: every classified row with a defined power ratio is
labelled by the first matching rule of the priority order — CLEAR when
`ratio ≥ threshold`, MARGINAL when `0.5·threshold ≤ ratio < threshold`,
CLOUDY when `ratio < 0.5·threshold` — and the three characterisations
are mutually exclusive and exhaustive, so exactly one rule applies. -/
theorem C3_label_priority (df : List Meas) (t : ℚ) (cr : ClassifiedRow)
    (hmem : cr ∈ ((mkCloudClassifier df t).classify).2) (r : ℚ)
    (hr : cr.power_ratio = some r) :
    (cr.classification = Classification.CLEAR ↔
      (mkCloudClassifier df t).threshold ≤ r) ∧
    (cr.classification = Classification.MARGINAL ↔
      0.5 * (mkCloudClassifier df t).threshold ≤ r ∧
        r < (mkCloudClassifier df t).threshold) ∧
    (cr.classification = Classification.CLOUDY ↔
      r < 0.5 * (mkCloudClassifier df t).threshold) := by
  rw [classify_out] at hmem
  obtain ⟨m, hmdf, hcr⟩ := List.mem_map.mp hmem
  subst hcr
  rcases hl : List.lookup m.hour (computeHourlyMedians df) with _ | med
  · simp only [classifyRow, hl] at hr
    cases hr
  · simp only [classifyRow, hl] at hr ⊢
    have hreq : m.power_W / (med + eps) = r := by simpa using hr
    simp only [mkCloudClassifier]
    rw [hreq]
    exact labelOf_cases _ r (le_trans (by norm_num) (le_max_left _ _))

/-- The one-measurement frame and its classified row used as concrete
witnesses for the classifier claims. -/
def wMeas : Meas := { hour := 0, power_W := 1 }

def wdf : List Meas := [wMeas]

def wcr : ClassifiedRow :=
  classifyRow (max 0.5 (min 0.9 (7/10))) (computeHourlyMedians wdf) wMeas

/-- Claim C3 witness: the single row of `wdf` has ratio
`1 / (1 + 1e-6) ≥ 0.7`, so the CLEAR characterisation holds of it. -/
theorem C3_label_priority_witness :
    (wcr.classification = Classification.CLEAR ↔
      (mkCloudClassifier wdf (7/10)).threshold ≤ (1 : ℚ) / (1 + eps)) ∧
    (wcr.classification = Classification.MARGINAL ↔
      0.5 * (mkCloudClassifier wdf (7/10)).threshold ≤ (1 : ℚ) / (1 + eps) ∧
        (1 : ℚ) / (1 + eps) < (mkCloudClassifier wdf (7/10)).threshold) ∧
    (wcr.classification = Classification.CLOUDY ↔
      (1 : ℚ) / (1 + eps) < 0.5 * (mkCloudClassifier wdf (7/10)).threshold) :=
  C3_label_priority wdf (7/10) wcr (List.mem_singleton_self wcr)
    ((1 : ℚ) / (1 + eps)) rfl

/-- Claim C6: every classified row carries a defined power ratio and a
confidence equal to `clip(1 - |ratio - threshold| / max(threshold,
1 - threshold), 0, 1)`, which lies in [0, 1]. -/
theorem C6_confidence_bounds (df : List Meas) (t : ℚ) (cr : ClassifiedRow)
    (hmem : cr ∈ ((mkCloudClassifier df t).classify).2) :
    ∃ r conf, cr.power_ratio = some r ∧ cr.confidence = some conf ∧
      conf = clip01 (1 - |r - (mkCloudClassifier df t).threshold| /
        max (mkCloudClassifier df t).threshold
          (1 - (mkCloudClassifier df t).threshold)) ∧
      0 ≤ conf ∧ conf ≤ 1 := by
  rw [classify_out] at hmem
  obtain ⟨m, hmdf, hcr⟩ := List.mem_map.mp hmem
  subst hcr
  have hhour : m.hour ∈ sortLe ((df.map (fun x => x.hour)).dedup) := by
    rw [mem_sortLe]
    exact List.mem_dedup.mpr (List.mem_map_of_mem _ hmdf)
  obtain ⟨med, hl⟩ := lookup_map_self m.hour (sortLe ((df.map (fun x => x.hour)).dedup))
    (fun h => median ((df.filter (fun x => x.hour = h)).map (fun x => x.power_W))) hhour
  have hl' : List.lookup m.hour (computeHourlyMedians df) = some med := by
    simpa [computeHourlyMedians] using hl
  simp only [classifyRow, hl', mkCloudClassifier]
  exact ⟨m.power_W / (med + eps), _, rfl, rfl, rfl,
    (clip01_bounds _).1, (clip01_bounds _).2⟩

/-- Claim C6 witness: the single classified row of `wdf` carries a
defined ratio and an in-bounds confidence. -/
theorem C6_confidence_bounds_witness :
    ∃ r conf, wcr.power_ratio = some r ∧ wcr.confidence = some conf ∧
      conf = clip01 (1 - |r - (mkCloudClassifier wdf (7/10)).threshold| /
        max (mkCloudClassifier wdf (7/10)).threshold
          (1 - (mkCloudClassifier wdf (7/10)).threshold)) ∧
      0 ≤ conf ∧ conf ≤ 1 :=
  C6_confidence_bounds wdf (7/10) wcr (List.mem_singleton_self wcr)

/-- The summary of a fresh classifier, spelled out. -/
lemma get_summary_eq (df : List Meas) (t : ℚ) :
    ((mkCloudClassifier df t).get_classification_summary).2 =
      { clear_count := (df.map (classifyRow (max 0.5 (min 0.9 t))
            (computeHourlyMedians df))).countP
            (fun r => r.classification = Classification.CLEAR),
        clear_pct := ((df.map (classifyRow (max 0.5 (min 0.9 t))
            (computeHourlyMedians df))).countP
            (fun r => r.classification = Classification.CLEAR) : ℚ) /
          ((df.map (classifyRow (max 0.5 (min 0.9 t))
            (computeHourlyMedians df))).length : ℚ) * 100,
        marginal_count := (df.map (classifyRow (max 0.5 (min 0.9 t))
            (computeHourlyMedians df))).countP
            (fun r => r.classification = Classification.MARGINAL),
        marginal_pct := ((df.map (classifyRow (max 0.5 (min 0.9 t))
            (computeHourlyMedians df))).countP
            (fun r => r.classification = Classification.MARGINAL) : ℚ) /
          ((df.map (classifyRow (max 0.5 (min 0.9 t))
            (computeHourlyMedians df))).length : ℚ) * 100,
        cloudy_count := (df.map (classifyRow (max 0.5 (min 0.9 t))
            (computeHourlyMedians df))).countP
            (fun r => r.classification = Classification.CLOUDY),
        cloudy_pct := ((df.map (classifyRow (max 0.5 (min 0.9 t))
            (computeHourlyMedians df))).countP
            (fun r => r.classification = Classification.CLOUDY) : ℚ) /
          ((df.map (classifyRow (max 0.5 (min 0.9 t))
            (computeHourlyMedians df))).length : ℚ) * 100 } := rfl

/-- Claim C5: for a nonempty classified measurement set the summary's
three counts add up to the number of rows and the three percentages add
up to exactly 100 (so in particular to 100 within 0.1 %). -/
theorem C5_summary_sums (df : List Meas) (t : ℚ) (hne : df ≠ []) :
    ((mkCloudClassifier df t).get_classification_summary).2.clear_count +
      ((mkCloudClassifier df t).get_classification_summary).2.marginal_count +
      ((mkCloudClassifier df t).get_classification_summary).2.cloudy_count =
      df.length ∧
    ((mkCloudClassifier df t).get_classification_summary).2.clear_pct +
      ((mkCloudClassifier df t).get_classification_summary).2.marginal_pct +
      ((mkCloudClassifier df t).get_classification_summary).2.cloudy_pct = 100 := by
  rw [get_summary_eq]
  have hsum := count_three
    (df.map (classifyRow (max 0.5 (min 0.9 t)) (computeHourlyMedians df)))
  rw [List.length_map] at hsum
  have hn : ((df.length : ℚ)) ≠ 0 := by
    have hz : df.length ≠ 0 := fun h => hne (List.length_eq_zero.mp h)
    exact_mod_cast hz
  constructor
  · exact hsum
  · have hcast :
        ((df.map (classifyRow (max 0.5 (min 0.9 t)) (computeHourlyMedians df))).countP
            (fun r => r.classification = Classification.CLEAR) : ℚ) +
          ((df.map (classifyRow (max 0.5 (min 0.9 t)) (computeHourlyMedians df))).countP
            (fun r => r.classification = Classification.MARGINAL) : ℚ) +
          ((df.map (classifyRow (max 0.5 (min 0.9 t)) (computeHourlyMedians df))).countP
            (fun r => r.classification = Classification.CLOUDY) : ℚ) =
          (df.length : ℚ) := by
      exact_mod_cast hsum
    simp only [List.length_map]
    simp only [List.countP_map] at hcast ⊢
    field_simp
    linarith

/-- Claim C5 witness: the summary of the one-row frame `wdf` — counts
sum to 1 and percentages to 100. -/
theorem C5_summary_sums_witness :
    ((mkCloudClassifier wdf (7/10)).get_classification_summary).2.clear_count +
      ((mkCloudClassifier wdf (7/10)).get_classification_summary).2.marginal_count +
      ((mkCloudClassifier wdf (7/10)).get_classification_summary).2.cloudy_count =
      wdf.length ∧
    ((mkCloudClassifier wdf (7/10)).get_classification_summary).2.clear_pct +
      ((mkCloudClassifier wdf (7/10)).get_classification_summary).2.marginal_pct +
      ((mkCloudClassifier wdf (7/10)).get_classification_summary).2.cloudy_pct = 100 :=
  C5_summary_sums wdf (7/10) (by simp [wdf])

/-- Scenario D input: two hourly rows for one date with average powers
40 and 20 and measurement counts 4 and 6. -/
def scenarioHourly : List HourlyRow :=
  [{ date := 0, hour := 10, avg_power_W := 40, std_power_W := 0,
     count_measurements := 4, avg_voltage_V := 0, avg_current_A := 0,
     avg_temperature_C := 25 },
   { date := 0, hour := 11, avg_power_W := 20, std_power_W := 0,
     count_measurements := 6, avg_voltage_V := 0, avg_current_A := 0,
     avg_temperature_C := 25 }]

/-- Scenario D expected daily row. -/
def scenarioDaily : DailyRow :=
  { date := 0, peak_power_W := 40, avg_power_W := 30, hours_measured := 10,
    temp_avg_C := 25, energy_Wh := 300 }

/-- Claim C8: every daily row aggregates its date's group of hourly
rows with `peak_power_W` the maximum of the group's `avg_power_W`,
`avg_power_W` the unweighted mean (the product with the group size is
the group sum), `hours_measured` the sum of `count_measurements`, and
`energy_Wh = avg_power_W * hours_measured`; and on scenario D (rows 40
W / 4 counts and 20 W / 6 counts) the output is exactly peak 40, mean
30, hours 10, energy 300. -/
theorem C8_daily_aggregation :
    (∀ (hourly : List HourlyRow) (drow : DailyRow),
      drow ∈ compute_daily_aggregations hourly →
      (hourly.filter (fun r => r.date = drow.date) ≠ [] ∧
       drow.peak_power_W ∈
         (hourly.filter (fun r => r.date = drow.date)).map
           (fun r => r.avg_power_W) ∧
       (∀ x ∈ (hourly.filter (fun r => r.date = drow.date)).map
           (fun r => r.avg_power_W), x ≤ drow.peak_power_W) ∧
       drow.avg_power_W *
           (((hourly.filter (fun r => r.date = drow.date)).length : ℕ) : ℚ) =
         qsum ((hourly.filter (fun r => r.date = drow.date)).map
           (fun r => r.avg_power_W)) ∧
       drow.hours_measured =
         ((hourly.filter (fun r => r.date = drow.date)).map
           (fun r => r.count_measurements)).sum ∧
       drow.energy_Wh = drow.avg_power_W * ((drow.hours_measured : ℕ) : ℚ))) ∧
    compute_daily_aggregations scenarioHourly = [scenarioDaily] := by
  constructor
  · intro hourly drow hmem
    simp only [compute_daily_aggregations] at hmem
    obtain ⟨d, hd, heq⟩ := List.mem_map.mp hmem
    subst heq
    have hdmem : d ∈ (hourly.map (fun r => r.date)) := by
      rw [mem_sortLe] at hd
      exact List.mem_dedup.mp hd
    obtain ⟨r0, hr0, hr0d⟩ := List.mem_map.mp hdmem
    have hr0f : r0 ∈ hourly.filter (fun r => r.date = d) :=
      List.mem_filter.mpr ⟨hr0, by simp [hr0d]⟩
    have hgne : hourly.filter (fun r => r.date = d) ≠ [] :=
      List.ne_nil_of_mem hr0f
    have havne : (hourly.filter (fun r => r.date = d)).map
        (fun r => r.avg_power_W) ≠ [] := by
      simp [hgne]
    have hqm := qmax_spec _ havne
    have hlne : (((hourly.filter (fun r => r.date = d)).length : ℕ) : ℚ) ≠ 0 := by
      have : (hourly.filter (fun r => r.date = d)).length ≠ 0 :=
        fun h => hgne (List.length_eq_zero.mp h)
      exact_mod_cast this
    refine ⟨hgne, hqm.1, hqm.2, ?_, rfl, rfl⟩
    exact div_mul_cancel₀ _ hlne
  · norm_num [compute_daily_aggregations, scenarioHourly, scenarioDaily,
      sortLe, insertLe, qsum, qmax, List.filter, List.dedup, max_def]

/-- Claim C8 witness: the general daily-aggregation property applied to
scenario D's group. -/
theorem C8_daily_aggregation_witness :
    scenarioHourly.filter (fun r => r.date = scenarioDaily.date) ≠ [] ∧
    scenarioDaily.peak_power_W ∈
      (scenarioHourly.filter (fun r => r.date = scenarioDaily.date)).map
        (fun r => r.avg_power_W) ∧
    (∀ x ∈ (scenarioHourly.filter (fun r => r.date = scenarioDaily.date)).map
        (fun r => r.avg_power_W), x ≤ scenarioDaily.peak_power_W) ∧
    scenarioDaily.avg_power_W *
        (((scenarioHourly.filter (fun r => r.date = scenarioDaily.date)).length : ℕ) : ℚ) =
      qsum ((scenarioHourly.filter (fun r => r.date = scenarioDaily.date)).map
        (fun r => r.avg_power_W)) ∧
    scenarioDaily.hours_measured =
      ((scenarioHourly.filter (fun r => r.date = scenarioDaily.date)).map
        (fun r => r.count_measurements)).sum ∧
    scenarioDaily.energy_Wh =
      scenarioDaily.avg_power_W * ((scenarioDaily.hours_measured : ℕ) : ℚ) :=
  C8_daily_aggregation.1 scenarioHourly scenarioDaily
    (by rw [C8_daily_aggregation.2]; exact List.mem_singleton_self _)
